import Mathlib

/-!
Verification of the discussion service (a Discourse-backed forum integration
layer).  The Python source is shallowly embedded: every service function and
route handler becomes a state-passing function over an explicit environment
describing the external collaborators (forum platform, auth service, asset
service, message queue) and a state carrying the association table and the
trace of external calls performed.  Raised Python exceptions become values of
an explicit error type; exceptions outside the module's own taxonomy are
modelled by the `unhandled` constructor (they propagate to the framework).
-/

namespace Discussion

/-- Error taxonomy of the service (discussion/models/exceptions.py), plus
`unhandled` for Python exceptions outside that taxonomy (KeyError,
AttributeError, pydantic validation errors, ...) which no route catches. -/
inductive DiscErr where
  | unavailable (msg : String)            -- DiscourseUnavailableError
  | discourseAuth (msg : String)          -- DiscourseAuthenticationError
  | requestError (msg : String)           -- DiscourseRequestError
  | resourceUnavailable                   -- DiscourseResourceUnavailableError
  | authenticationNeeded (msg : String)   -- AuthenticationNeededError
  | sendPostModeration                    -- SendPostModerationError
  | assetRetrieval (msg : String)         -- AssetRetrievalError
  | despGeneric (msg : String)            -- DespGenericError (msfwk)
  | unhandled (msg : String)              -- any exception outside the taxonomy
  deriving Repr, DecidableEq

/-- One outbound call to an external collaborator (forum HTTP API, database,
auth service, asset service, message queue, e-mail notification). -/
inductive ExtCall where
  | forumEnsureUser
  | forumCategoryFetch (categoryId : Nat)
  | forumCategoryCreate (name : String)
  | forumTopicsFetch (slug : String) (categoryId : Nat)
  | forumTopicCreate (title : String) (text : String)
  | forumPostCreate (topicId : String) (text : String)
  | forumPostFetch (postId : String)
  | forumPostEdit (postId : String) (text : String)
  | forumTopicFetch (topicId : String)
  | forumTopicDelete (topicId : String)
  | dbSelect (assetId : String)
  | dbInsert (categoryId : Nat) (assetId : String)
  | authProfileRoles
  | authProfileMail (userId : String)
  | assetOwnerFetch (assetId : String)
  | assetFetch (assetId : String)
  | mqPublish (tag : String)
  | emailSend (recipient : String) (subject : String) (message : String)
  deriving Repr, DecidableEq

/-- A row of the `Discourses` association table (assetId, categoryId). -/
structure DbRow where
  assetId : String
  categoryId : Nat
  deriving Repr, DecidableEq

/-- Mutable world state threaded through a request: the association table and
the trace of external calls already performed. -/
structure St where
  db : List DbRow
  calls : List ExtCall
  deriving Repr, DecidableEq

def addCall (s : St) (c : ExtCall) : St :=
  { s with calls := s.calls ++ [c] }

/-- A computation of the service: reads/writes `St`, may raise a `DiscErr`. -/
def M (α : Type) : Type := St → Except DiscErr α × St

/-- Profile of the authenticated user (msfwk DespUser.profile). -/
structure Profile where
  email : String
  deriving Repr, DecidableEq

/-- The authenticated user attached to the inbound request (msfwk DespUser). -/
structure DespUser where
  id : String
  username : String
  displayName : String
  profile : Profile
  deriving Repr, DecidableEq

/-- Category representation (claim-relevant fields of DiscourseCategory). -/
structure DiscourseCategory where
  id : Nat
  name : String
  slug : String
  deriving Repr, DecidableEq

/-- A poster entry of a topic in the platform's topic-list payload. -/
structure DiscoursePoster where
  description : String
  user_id : Option Nat
  deriving Repr, DecidableEq

/-- A user entry of the platform's topic-list payload. -/
structure DiscourseUserRec where
  id : Nat
  username : String
  deriving Repr, DecidableEq

/-- A raw topic of the platform's topic-list payload. -/
structure RawTopic where
  id : Nat
  title : String
  posters : List DiscoursePoster
  deriving Repr, DecidableEq

/-- The platform's `/c/slug/id.json` payload (users table + topic list). -/
structure TopicsPayload where
  users : List DiscourseUserRec
  topics : List RawTopic
  deriving Repr, DecidableEq

/-- Enriched topic produced by get_discourse_topics (claim-relevant fields of
DiscourseTopic: the added `username` plus identifying fields). -/
structure DiscourseTopic where
  id : Nat
  title : String
  username : Option String
  deriving Repr, DecidableEq

/-- Raw topic body of `/t/id.json` used by get_discourse_topic: the title and
the `details.created_by.username` value when present. -/
structure RawTopicView where
  id : Nat
  title : String
  created_by : Option String
  deriving Repr, DecidableEq

/-- Topic returned by get_discourse_topic (username resolved from created_by). -/
structure TopicView where
  id : Nat
  title : String
  username : Option String
  deriving Repr, DecidableEq

/-- Post representation (claim-relevant fields of DiscoursePost /
DiscussionPostResponse: id, author username, content, parent topic). -/
structure DiscoursePostR where
  id : Nat
  username : String
  cooked : String
  topic_id : Nat
  deriving Repr, DecidableEq

/-- Request body of POST /topic (interfaces.CreateTopicBody). -/
structure CreateTopicBody where
  title : String
  text : String
  asset_id : String
  deriving Repr, DecidableEq

/-- Request body of POST /topic/topic_id (interfaces.CreatePostBody). -/
structure CreatePostBody where
  text : String
  deriving Repr, DecidableEq

/-- Request body of the post edit / moderation routes (interfaces.EditPostBody). -/
structure EditPostBody where
  text : String
  deriving Repr, DecidableEq

/-- Shaped topic returned to the UI (claim-relevant fields). -/
structure DiscussionTopicResponse where
  id : Nat
  title : String
  username : Option String
  deriving Repr, DecidableEq

def DiscussionTopicResponse.from_reply (t : DiscourseTopic) : DiscussionTopicResponse :=
  { id := t.id, title := t.title, username := t.username }

/-- Returned object on GET /discussion (interfaces.DiscussionResponse). -/
structure DiscussionResponse where
  id : Nat
  name : String
  topics : List DiscussionTopicResponse
  deriving Repr, DecidableEq

def DiscussionResponse.from_reply (cat : DiscourseCategory) (ts : List DiscourseTopic) :
    DiscussionResponse :=
  { id := cat.id, name := cat.name, topics := ts.map DiscussionTopicResponse.from_reply }

/-- The `data` field of a DespResponse, per route shape. -/
inductive RespData where
  | empty                                   -- Python's initial response = {} or {}
  | discussion (d : DiscussionResponse)
  | topics (ts : List DiscussionTopicResponse)
  | post (p : DiscoursePostR)
  | message (m : String)                    -- data = "message": m as a dict
  | errorData (m : String)                  -- data = "Error": m as a dict
  deriving Repr, DecidableEq

/-- msfwk DespResponse: data, error, http_status wrapper. -/
structure DespResponse where
  data : RespData
  error : Option String
  http_status : Nat
  deriving Repr, DecidableEq

/-- Status plus the body's `errors` list (read by the 422/429 classifier). -/
structure ForumReply where
  status : Nat
  errors : List String
  deriving Repr, DecidableEq

/-- The external world fixed for the duration of one request: the response the
platform / collaborators give on each endpoint, the authenticated user, and the
pseudo-random number drawn for category naming.  `profileEmails` is the auth
collaborator's username-to-email table (used only by the spec-side definition
of the moderated content's author e-mail). -/
structure Env where
  currentUser : Option DespUser
  randNum : Nat
  ensureUserResp : ForumReply
  catFetchResp : ForumReply
  catFetchCategory : Option DiscourseCategory
  catCreateResp : ForumReply
  catCreateBodyErrors : Option (List String)
  catCreateCategory : Option DiscourseCategory
  topicsResp : ForumReply
  topicsPayload : Option TopicsPayload
  topicCreateResp : ForumReply
  topicCreateBodyError : Option (List String)
  topicCreatePost : Option DiscoursePostR
  postCreateResp : ForumReply
  postCreateBody : Option DiscoursePostR
  postFetchResp : ForumReply
  postFetchBody : Option DiscoursePostR
  postEditResp : ForumReply
  postEditBody : Option DiscoursePostR
  topicFetchResp : ForumReply
  topicFetchBody : Option RawTopicView
  topicDeleteResp : ForumReply
  rolesStatus : Nat
  rolesBody : List String
  mqPostOk : Bool
  mqTopicOk : Bool
  assetOwnerStatus : Nat
  assetOwnerId : String
  ownerMail : Option String
  assetPublicName : String
  profileEmails : List (String × String)
  deriving Repr, DecidableEq

/-! ## Constants (discussion/models/constants.py) -/

def DEFAULT_INTERNAL_ERROR_MESSAGE : String := "We are facing a problem with the subsystem"

def MISSING_CATEGORY_ERROR_MESSAGE : String :=
  "The category is not existing, please verify the information"

def TITLE_TOO_SHORT : String := "You need to provide a title at least 15 chars"

def CONTENT_TOO_SHORT : String := "You need to provide a title at least 20 chars"

def DISCOURSE_POST_CATEGORY_UUID : String := "00000000-0000-0000-0000-111111111111"

def MIN_TITLE_SIZE_IN_CHAR : Nat := 15

def MIN_CONTENT_SIZE_IN_CHAR : Nat := 20

/-! ## Error classification (discussion/services/discourse.py) -/

/-- is_a_5xx_error: int(status / 100) == 5. -/
def is_a_5xx_error (status : Nat) : Bool := status / 100 == 5

/-- handle_response_error: the single status classifier every awaited forum
call funnels through.  `errors` is the response body's `errors` list (read on
the 422/429 paths). -/
def handle_response_error (status : Nat) (errors : List String) (message : String) :
    Except DiscErr Unit :=
  if is_a_5xx_error status then
    Except.error (DiscErr.unavailable message)
  else if status == 403 then
    Except.error (DiscErr.discourseAuth ("Failed to authenticate on discourse during " ++ message))
  else if status == 422 then
    Except.error (DiscErr.requestError (String.intercalate "-" errors))
  else if status == 429 then
    Except.error (DiscErr.requestError (String.intercalate "-" errors))
  else
    Except.ok ()

/-! ## check_default_message: re.match of "About the digits_uuid category" -/

/-- Consume a literal character sequence at the head of the input. -/
def dropLiteral : List Char → List Char → Option (List Char)
  | [], rest => some rest
  | _ :: _, [] => none
  | p :: ps, c :: cs => if p == c then dropLiteral ps cs else none

/-- Consume one-or-more characters of a class (greedy; exact for this pattern
because the character following each class in the pattern is not in the class). -/
def takeClassOneOrMore (p : Char → Bool) : List Char → Option (List Char)
  | [] => none
  | c :: cs => if p c then some (cs.dropWhile p) else none

/-- Does the literal occur at the head of the input (match is not end-anchored). -/
def headIsLiteral : List Char → List Char → Bool
  | [], _ => true
  | _ :: _, [] => false
  | p :: ps, c :: cs => p == c && headIsLiteral ps cs

/-- The character class of the pattern's uuid part: a-f, 0-9 or a dash. -/
def isHexLowerOrDash (c : Char) : Bool :=
  ('a' ≤ c && c ≤ 'f') || c.isDigit || c == '-'

/-- Does the needle occur anywhere in the haystack (Python's `in` on str). -/
def containsSub (needle : List Char) : List Char → Bool
  | [] => headIsLiteral needle []
  | c :: cs => headIsLiteral needle (c :: cs) || containsSub needle cs

/-- Python's `needle in hay` for strings. -/
def containsSubstring (needle hay : String) : Bool :=
  containsSub needle.toList hay.toList

/-- Python's str.lower(), character by character (ASCII; the roles compared
here are plain ASCII words). -/
def pyLower (s : String) : String :=
  String.mk (s.toList.map Char.toLower)

/-- check_default_message: whether the title matches (anchored at the start)
the pattern "About the " digits "_" hex-or-dash chars " category". -/
def check_default_message (s : String) : Bool :=
  match dropLiteral "About the ".toList s.toList with
  | none => false
  | some r1 =>
    match takeClassOneOrMore Char.isDigit r1 with
    | none => false
    | some r2 =>
      match r2 with
      | '_' :: r3 =>
        match takeClassOneOrMore isHexLowerOrDash r3 with
        | none => false
        | some r4 => headIsLiteral " category".toList r4
      | _ => false

/-! ## Association store (get_category_asset / set_category_asset) -/

/-- get_category_asset: select the rows whose assetId matches and take the
first one, returning its categoryId. -/
def get_category_asset (asset_id : String) : M (Option Nat) := fun s =>
  let s1 := addCall s (ExtCall.dbSelect asset_id)
  match (s.db.filter (fun r => r.assetId == asset_id)).head? with
  | none => (Except.ok none, s1)
  | some r => (Except.ok (some r.categoryId), s1)

/-- The database layer's insert: raises an integrity error when a row for the
asset already exists (the association's uniqueness constraint). -/
def dbInsertRow (db : List DbRow) (categoryId : Nat) (assetId : String) :
    Except String (List DbRow) :=
  if db.any (fun r => r.assetId == assetId) then
    Except.error "IntegrityError"
  else
    Except.ok (db ++ [{ assetId := assetId, categoryId := categoryId }])

/-- set_category_asset: insert the association; an IntegrityError is caught and
logged and the function returns None (it also returns None on success). -/
def set_category_asset (category_id : Nat) (asset_id : String) : M (Option Nat) := fun s =>
  let s1 := addCall s (ExtCall.dbInsert category_id asset_id)
  match dbInsertRow s.db category_id asset_id with
  | Except.error _ => (Except.ok none, s1)
  | Except.ok db2 => (Except.ok none, { s1 with db := db2 })

/-! ## Forum client adapter (discussion/services/discourse.py) -/

/-- ensure_user: raises AuthenticationNeededError when no user is attached,
otherwise posts the fixed user-creation payload and runs the classifier
(the message string is "category retrieval" verbatim in the source). -/
def ensure_user (env : Env) (desp_user : Option DespUser) : M Unit := fun s =>
  match desp_user with
  | none =>
    (Except.error (DiscErr.authenticationNeeded
      "You need to be logged in in order to publish on forum"), s)
  | some _ =>
    let s1 := addCall s ExtCall.forumEnsureUser
    match handle_response_error env.ensureUserResp.status env.ensureUserResp.errors
        "category retrieval" with
    | Except.error e => (Except.error e, s1)
    | Except.ok _ => (Except.ok (), s1)

/-- create_category: POST /categories.json with name "randNum_assetId", run the
classifier on non-2xx, fail on a body-level errors field, store the association
and return the category. -/
def create_category (env : Env) (asset_id : String) : M DiscourseCategory := fun s =>
  let catName := toString env.randNum ++ "_" ++ asset_id
  let s1 := addCall s (ExtCall.forumCategoryCreate catName)
  let parseBody : M DiscourseCategory := fun s2 =>
    match env.catCreateBodyErrors with
    | some errs => (Except.error (DiscErr.requestError (String.intercalate "-" errs)), s2)
    | none =>
      match env.catCreateCategory with
      | none => (Except.error (DiscErr.unhandled "KeyError: category"), s2)
      | some cat =>
        match set_category_asset cat.id asset_id s2 with
        | (Except.error e, s3) => (Except.error e, s3)
        | (Except.ok _, s3) => (Except.ok cat, s3)
  if env.catCreateResp.status != 200 && env.catCreateResp.status != 201 then
    match handle_response_error env.catCreateResp.status env.catCreateResp.errors
        "category creation" with
    | Except.error e => (Except.error e, s1)
    | Except.ok _ => parseBody s1
  else parseBody s1

/-- get_discourse_category: create when no category is associated yet; else
fetch by id, run the classifier, and fall back to creation on a 404. -/
def get_discourse_category (env : Env) (category : Option Nat) (asset_id : String) :
    M DiscourseCategory := fun s =>
  match category with
  | none => create_category env asset_id s
  | some cid =>
    let s1 := addCall s (ExtCall.forumCategoryFetch cid)
    match handle_response_error env.catFetchResp.status env.catFetchResp.errors
        "category retrieval" with
    | Except.error e => (Except.error e, s1)
    | Except.ok _ =>
      if env.catFetchResp.status == 404 then create_category env asset_id s1
      else
        match env.catFetchCategory with
        | none => (Except.error (DiscErr.unhandled "KeyError: category"), s1)
        | some cat => (Except.ok cat, s1)

/-- user_lookup built from the payload's users list (a Python dict
comprehension: on duplicate ids the later entry wins). -/
def user_lookup (users : List DiscourseUserRec) (uid : Nat) : Option String :=
  match users.reverse.find? (fun u => u.id == uid) with
  | none => none
  | some u => some u.username

/-- The source's poster loop: the first poster whose description contains
"Original Poster" determines the username (looked up in the users table;
the loop breaks there), else None. -/
def resolveUsername (users : List DiscourseUserRec) : List DiscoursePoster → Option String
  | [] => none
  | p :: ps =>
    if containsSubstring "Original Poster" p.description then
      match p.user_id with
      | none => none
      | some uid => user_lookup users uid
    else resolveUsername users ps

/-- get_discourse_topics: fetch the topic list; 404 raises resource-unavailable;
for any other non-2xx status the source calls handle_response_error WITHOUT
awaiting it, so the classifier has no effect and parsing proceeds on the raw
body; default "About the ..." topics are filtered out and usernames resolved. -/
def get_discourse_topics (env : Env) (slug : String) (category_id : Nat) :
    M (List DiscourseTopic) := fun s =>
  let s1 := addCall s (ExtCall.forumTopicsFetch slug category_id)
  let parseBody : M (List DiscourseTopic) := fun s2 =>
    match env.topicsPayload with
    | none => (Except.error (DiscErr.unhandled "KeyError: topic_list"), s2)
    | some data =>
      let kept := data.topics.filter (fun t => !(check_default_message t.title))
      (Except.ok (kept.map (fun t =>
        { id := t.id, title := t.title, username := resolveUsername data.users t.posters })), s2)
  if env.topicsResp.status != 200 && env.topicsResp.status != 201 then
    if env.topicsResp.status == 404 then
      (Except.error DiscErr.resourceUnavailable, s1)
    else
      -- handle_response_error(response, "Getting topics") is not awaited here:
      -- the coroutine is created and discarded, so no error can be raised.
      parseBody s1
  else parseBody s1

/-- create_discourse_topic: POST /posts.json with category/title/raw; run the
classifier on non-2xx; fail on a body-level error field; return the post. -/
def create_discourse_topic (env : Env) (username : String) (category_id : Nat)
    (title : String) (content : String) : M DiscoursePostR := fun s =>
  let s1 := addCall s (ExtCall.forumTopicCreate title content)
  let parseBody : M DiscoursePostR := fun s2 =>
    match env.topicCreateBodyError with
    | some errs => (Except.error (DiscErr.requestError (String.intercalate "-" errs)), s2)
    | none =>
      match env.topicCreatePost with
      | none => (Except.error (DiscErr.unhandled "ValidationError: DiscoursePost"), s2)
      | some p => (Except.ok p, s2)
  if env.topicCreateResp.status != 200 && env.topicCreateResp.status != 201 then
    match handle_response_error env.topicCreateResp.status env.topicCreateResp.errors
        "Topic creation" with
    | Except.error e => (Except.error e, s1)
    | Except.ok _ => parseBody s1
  else parseBody s1

/-- create_discourse_post: POST /posts.json with topic_id/raw; run the
classifier on non-2xx; return the raw response body (parsed by the route). -/
def create_discourse_post (env : Env) (username : String) (topic_id : String)
    (text : String) : M (Option DiscoursePostR) := fun s =>
  let s1 := addCall s (ExtCall.forumPostCreate topic_id text)
  if env.postCreateResp.status != 200 && env.postCreateResp.status != 201 then
    match handle_response_error env.postCreateResp.status env.postCreateResp.errors
        "Post creation" with
    | Except.error e => (Except.error e, s1)
    | Except.ok _ => (Except.ok env.postCreateBody, s1)
  else (Except.ok env.postCreateBody, s1)

/-- get_discourse_topic: fetch /t/id.json, run the classifier on non-2xx, and
resolve the username from details.created_by. -/
def get_discourse_topic (env : Env) (topic_id : String) : M TopicView := fun s =>
  let s1 := addCall s (ExtCall.forumTopicFetch topic_id)
  let parseBody : M TopicView := fun s2 =>
    match env.topicFetchBody with
    | none => (Except.error (DiscErr.unhandled "ValidationError: DiscourseTopic"), s2)
    | some raw =>
      (Except.ok { id := raw.id, title := raw.title, username := raw.created_by }, s2)
  if env.topicFetchResp.status != 200 && env.topicFetchResp.status != 201 then
    match handle_response_error env.topicFetchResp.status env.topicFetchResp.errors
        "Fetching topic" with
    | Except.error e => (Except.error e, s1)
    | Except.ok _ => parseBody s1
  else parseBody s1

/-- get_discourse_post: fetch /posts/id.json, run the classifier on non-2xx. -/
def get_discourse_post (env : Env) (post_id : String) : M DiscoursePostR := fun s =>
  let s1 := addCall s (ExtCall.forumPostFetch post_id)
  let parseBody : M DiscoursePostR := fun s2 =>
    match env.postFetchBody with
    | none => (Except.error (DiscErr.unhandled "ValidationError: DiscoursePost"), s2)
    | some p => (Except.ok p, s2)
  if env.postFetchResp.status != 200 && env.postFetchResp.status != 201 then
    match handle_response_error env.postFetchResp.status env.postFetchResp.errors
        "Fetching post" with
    | Except.error e => (Except.error e, s1)
    | Except.ok _ => parseBody s1
  else parseBody s1

/-- edit_discourse_post: PUT /posts/id.json, run the classifier on non-2xx,
return the body's post field. -/
def edit_discourse_post (env : Env) (post_id : String) (updated_content : String) :
    M DiscoursePostR := fun s =>
  let s1 := addCall s (ExtCall.forumPostEdit post_id updated_content)
  let parseBody : M DiscoursePostR := fun s2 =>
    match env.postEditBody with
    | none => (Except.error (DiscErr.unhandled "TypeError: post is None"), s2)
    | some p => (Except.ok p, s2)
  if env.postEditResp.status != 200 && env.postEditResp.status != 201 then
    match handle_response_error env.postEditResp.status env.postEditResp.errors
        "Post modification" with
    | Except.error e => (Except.error e, s1)
    | Except.ok _ => parseBody s1
  else parseBody s1

/-- delete_discourse_topic: DELETE /t/id.json, run the classifier on non-2xx. -/
def delete_discourse_topic (env : Env) (topic_id : String) : M Unit := fun s =>
  let s1 := addCall s (ExtCall.forumTopicDelete topic_id)
  if env.topicDeleteResp.status != 200 && env.topicDeleteResp.status != 201 then
    match handle_response_error env.topicDeleteResp.status env.topicDeleteResp.errors
        "Topic deletion" with
    | Except.error e => (Except.error e, s1)
    | Except.ok _ => (Except.ok (), s1)
  else (Except.ok (), s1)

/-! ## Auth / asset collaborator clients -/

/-- get_current_user_roles (auth_service.py): a 401 makes the inner
UserNotLoggedInError be re-raised by the catch-all as
DiscourseRequestError("Failed to get current user roles"); a 200 returns the
roles; any other status falls through returning None (modelled as `none`,
making the caller's iteration fail). -/
def get_current_user_roles (env : Env) : M (Option (List String)) := fun s =>
  let s1 := addCall s ExtCall.authProfileRoles
  if env.rolesStatus == 401 then
    (Except.error (DiscErr.requestError "Failed to get current user roles"), s1)
  else if env.rolesStatus == 200 then
    (Except.ok (some env.rolesBody), s1)
  else
    (Except.ok none, s1)

/-- _get_asset_owner (services/asset.py): non-2xx raises AssetRetrievalError,
else return the asset's despUserId. -/
def get_asset_owner (env : Env) (asset_id : String) : M String := fun s =>
  let s1 := addCall s (ExtCall.assetOwnerFetch asset_id)
  if env.assetOwnerStatus != 200 && env.assetOwnerStatus != 201 then
    (Except.error (DiscErr.assetRetrieval
      ("Asset service answered " ++ toString env.assetOwnerStatus)), s1)
  else (Except.ok env.assetOwnerId, s1)

/-- get_mail_from_desp_user_id (auth_service.py): any failure is re-raised as a
DespGenericError; otherwise the profile's email is returned. -/
def get_mail_from_desp_user_id (env : Env) (desp_user_id : String) : M String := fun s =>
  let s1 := addCall s (ExtCall.authProfileMail desp_user_id)
  match env.ownerMail with
  | none => (Except.error (DiscErr.despGeneric "Could not call auth service"), s1)
  | some mail => (Except.ok mail, s1)

/-- get_asset (services/asset.py): returns the asset body; the route reads
data.public.name from it (modelled directly as the public name). -/
def get_asset (env : Env) (asset_id : String) : M String := fun s =>
  let s1 := addCall s (ExtCall.assetFetch asset_id)
  (Except.ok env.assetPublicName, s1)

/-! ## Moderation event publisher (services/rabbitmq_events.py) -/

/-- send_post_to_moderation: publish the post moderation event; an MQ send
failure is caught and re-raised as SendPostModerationError. -/
def send_post_to_moderation (env : Env) (post : DiscoursePostR) (text : String)
    (user : DespUser) : M Unit := fun s =>
  let s1 := addCall s (ExtCall.mqPublish "post")
  if env.mqPostOk then (Except.ok (), s1)
  else (Except.error DiscErr.sendPostModeration, s1)

/-- send_topic_to_moderation: publish the topic moderation event; an MQ send
failure is caught and re-raised as SendPostModerationError. -/
def send_topic_to_moderation (env : Env) (topic_id : Nat) (topic_title : String)
    (user : DespUser) : M Unit := fun s =>
  let s1 := addCall s (ExtCall.mqPublish "topic")
  if env.mqTopicOk then (Except.ok (), s1)
  else (Except.error DiscErr.sendPostModeration, s1)

/-! ## Route handlers (discussion/routes/discourse.py)

Each route is the body of its handler's try-block followed by the handler's
except-clauses.  Errors not named in a handler's except-clauses stay in the
`Except.error` component: they propagate to the framework as an unhandled
exception (the framework's own 500), never as a DespResponse. -/

/-- GET /discussion/asset_id: resolve or create the category, list its topics,
shape the response; catches the four-taxonomy with the initial empty
DiscussionResponse as data. -/
def get_category (env : Env) (asset_id : String) : M DespResponse := fun s =>
  let resp0 : DiscussionResponse := { id := 0, name := "", topics := [] }
  let flow : M DespResponse := fun sa =>
    match get_category_asset asset_id sa with
    | (Except.error e, s1) => (Except.error e, s1)
    | (Except.ok cid, s1) =>
      match get_discourse_category env cid asset_id s1 with
      | (Except.error e, s2) => (Except.error e, s2)
      | (Except.ok cat, s2) =>
        match get_discourse_topics env cat.slug cat.id s2 with
        | (Except.error e, s3) => (Except.error e, s3)
        | (Except.ok ts, s3) =>
          (Except.ok { data := RespData.discussion (DiscussionResponse.from_reply cat ts),
                       error := none, http_status := 200 }, s3)
  match flow s with
  | (Except.ok r, s1) => (Except.ok r, s1)
  | (Except.error e, s1) =>
    match e with
    | DiscErr.unavailable _ =>
      (Except.ok { data := RespData.discussion resp0,
                   error := some DEFAULT_INTERNAL_ERROR_MESSAGE, http_status := 200 }, s1)
    | DiscErr.resourceUnavailable =>
      (Except.ok { data := RespData.discussion resp0,
                   error := some DEFAULT_INTERNAL_ERROR_MESSAGE, http_status := 200 }, s1)
    | DiscErr.requestError m =>
      (Except.ok { data := RespData.discussion resp0, error := some m, http_status := 200 }, s1)
    | DiscErr.authenticationNeeded m =>
      (Except.ok { data := RespData.discussion resp0, error := some m, http_status := 401 }, s1)
    | _ => (Except.error e, s1)

/-- GET /topics/slug/category: list a category's topics. -/
def get_topics (env : Env) (slug : String) (category : Nat) : M DespResponse := fun s =>
  match get_discourse_topics env slug category s with
  | (Except.ok ts, s1) =>
    (Except.ok { data := RespData.topics (ts.map DiscussionTopicResponse.from_reply),
                 error := none, http_status := 200 }, s1)
  | (Except.error e, s1) =>
    match e with
    | DiscErr.unavailable _ =>
      (Except.ok { data := RespData.empty,
                   error := some DEFAULT_INTERNAL_ERROR_MESSAGE, http_status := 500 }, s1)
    | DiscErr.resourceUnavailable =>
      (Except.ok { data := RespData.empty,
                   error := some MISSING_CATEGORY_ERROR_MESSAGE, http_status := 404 }, s1)
    | DiscErr.requestError m =>
      (Except.ok { data := RespData.empty, error := some m, http_status := 500 }, s1)
    | DiscErr.authenticationNeeded m =>
      (Except.ok { data := RespData.empty, error := some m, http_status := 401 }, s1)
    | _ => (Except.error e, s1)

/-- POST /topic/topic_id: ensure the user, create the post, parse it, publish
the moderation event.  The handler reads user.username before its try-block,
so a missing user is an AttributeError; SendPostModerationError is not in the
except-clauses and propagates. -/
def create_post (env : Env) (topic_id : String) (request_body : CreatePostBody) :
    M DespResponse := fun s =>
  match env.currentUser with
  | none => (Except.error (DiscErr.unhandled "AttributeError: username of None"), s)
  | some user =>
    let flow : M DespResponse := fun sa =>
      match ensure_user env (some user) sa with
      | (Except.error e, s1) => (Except.error e, s1)
      | (Except.ok _, s1) =>
        match create_discourse_post env user.username topic_id request_body.text s1 with
        | (Except.error e, s2) => (Except.error e, s2)
        | (Except.ok body, s2) =>
          match body with
          | none => (Except.error (DiscErr.unhandled "ValidationError: DiscussionPostResponse"), s2)
          | some p =>
            match send_post_to_moderation env p request_body.text user s2 with
            | (Except.error e, s3) => (Except.error e, s3)
            | (Except.ok _, s3) =>
              (Except.ok { data := RespData.post p, error := none, http_status := 200 }, s3)
    match flow s with
    | (Except.ok r, s1) => (Except.ok r, s1)
    | (Except.error e, s1) =>
      match e with
      | DiscErr.unavailable _ =>
        (Except.ok { data := RespData.empty,
                     error := some DEFAULT_INTERNAL_ERROR_MESSAGE, http_status := 200 }, s1)
      | DiscErr.resourceUnavailable =>
        (Except.ok { data := RespData.empty,
                     error := some DEFAULT_INTERNAL_ERROR_MESSAGE, http_status := 200 }, s1)
      | DiscErr.requestError m =>
        (Except.ok { data := RespData.empty, error := some m, http_status := 200 }, s1)
      | DiscErr.authenticationNeeded m =>
        (Except.ok { data := RespData.empty, error := some m, http_status := 401 }, s1)
      | _ => (Except.error e, s1)

/-- PUT /post/moderate/post_id: ensure the user, fetch the original post, edit
it, and e-mail the CURRENT user (user.profile.email) with the original post's
content in the message body. -/
def moderate_post (env : Env) (post_id : String) (request_body : EditPostBody) :
    M DespResponse := fun s =>
  match env.currentUser with
  | none => (Except.error (DiscErr.unhandled "AttributeError: username of None"), s)
  | some user =>
    let flow : M DespResponse := fun sa =>
      match ensure_user env (some user) sa with
      | (Except.error e, s1) => (Except.error e, s1)
      | (Except.ok _, s1) =>
        match get_discourse_post env post_id s1 with
        | (Except.error e, s2) => (Except.error e, s2)
        | (Except.ok original_post, s2) =>
          match edit_discourse_post env post_id request_body.text s2 with
          | (Except.error e, s3) => (Except.error e, s3)
          | (Except.ok edited, s3) =>
            let s4 := addCall s3 (ExtCall.emailSend user.profile.email
              "Post refused by moderation"
              ("Post has been refused by the moderation: " ++ original_post.cooked))
            (Except.ok { data := RespData.post edited, error := none, http_status := 200 }, s4)
    match flow s with
    | (Except.ok r, s1) => (Except.ok r, s1)
    | (Except.error e, s1) =>
      match e with
      | DiscErr.unavailable _ =>
        (Except.ok { data := RespData.empty,
                     error := some DEFAULT_INTERNAL_ERROR_MESSAGE, http_status := 200 }, s1)
      | DiscErr.resourceUnavailable =>
        (Except.ok { data := RespData.empty,
                     error := some DEFAULT_INTERNAL_ERROR_MESSAGE, http_status := 200 }, s1)
      | DiscErr.requestError m =>
        (Except.ok { data := RespData.empty, error := some m, http_status := 200 }, s1)
      | DiscErr.authenticationNeeded m =>
        (Except.ok { data := RespData.empty, error := some m, http_status := 401 }, s1)
      | _ => (Except.error e, s1)

/-- POST /topic: validate lengths first (before any external call), ensure the
user, require an existing association, create the topic, publish the two
moderation events, then notify (the creating user for the sentinel asset id,
the asset's owner otherwise). -/
def create_topic (env : Env) (topic_request_body : CreateTopicBody) : M DespResponse := fun s =>
  match env.currentUser with
  | none => (Except.error (DiscErr.unhandled "AttributeError: username of None"), s)
  | some user =>
    if topic_request_body.title.length < MIN_TITLE_SIZE_IN_CHAR then
      (Except.ok { data := RespData.empty, error := some TITLE_TOO_SHORT, http_status := 400 }, s)
    else if topic_request_body.text.length < MIN_CONTENT_SIZE_IN_CHAR then
      (Except.ok { data := RespData.empty, error := some CONTENT_TOO_SHORT, http_status := 400 }, s)
    else
      let flow : M DespResponse := fun sa =>
        match ensure_user env (some user) sa with
        | (Except.error e, s1) => (Except.error e, s1)
        | (Except.ok _, s1) =>
          match get_category_asset topic_request_body.asset_id s1 with
          | (Except.error e, s2) => (Except.error e, s2)
          | (Except.ok none, s2) =>
            let msg := "Topic creation Failed. Category_id for asset "
              ++ topic_request_body.asset_id ++ " is missing."
            (Except.ok { data := RespData.errorData msg, error := none, http_status := 500 }, s2)
          | (Except.ok (some cid), s2) =>
            match create_discourse_topic env user.username cid topic_request_body.title
                topic_request_body.text s2 with
            | (Except.error e, s3) => (Except.error e, s3)
            | (Except.ok post, s3) =>
              match send_topic_to_moderation env post.topic_id topic_request_body.title user s3 with
              | (Except.error e, s4) => (Except.error e, s4)
              | (Except.ok _, s4) =>
                match send_post_to_moderation env post topic_request_body.text user s4 with
                | (Except.error e, s5) => (Except.error e, s5)
                | (Except.ok _, s5) =>
                  if topic_request_body.asset_id == DISCOURSE_POST_CATEGORY_UUID then
                    let s6 := addCall s5 (ExtCall.emailSend user.profile.email
                      "New Post Created"
                      ("A new post " ++ topic_request_body.title ++ " has been created."))
                    (Except.ok { data := RespData.post post, error := none, http_status := 200 }, s6)
                  else
                    match get_asset_owner env topic_request_body.asset_id s5 with
                    | (Except.error e, s6) => (Except.error e, s6)
                    | (Except.ok owner_user_id, s6) =>
                      match get_mail_from_desp_user_id env owner_user_id s6 with
                      | (Except.error e, s7) => (Except.error e, s7)
                      | (Except.ok owner_mail, s7) =>
                        match get_asset env topic_request_body.asset_id s7 with
                        | (Except.error e, s8) => (Except.error e, s8)
                        | (Except.ok asset_name, s8) =>
                          let s9 := addCall s8 (ExtCall.emailSend owner_mail
                            "New Topic created for your asset"
                            ("A new topic " ++ topic_request_body.title
                              ++ " has been created for your asset " ++ asset_name))
                          (Except.ok { data := RespData.post post,
                                       error := none, http_status := 200 }, s9)
      match flow s with
      | (Except.ok r, s1) => (Except.ok r, s1)
      | (Except.error e, s1) =>
        match e with
        | DiscErr.unavailable _ =>
          (Except.ok { data := RespData.empty,
                       error := some DEFAULT_INTERNAL_ERROR_MESSAGE, http_status := 200 }, s1)
        | DiscErr.resourceUnavailable =>
          (Except.ok { data := RespData.empty,
                       error := some DEFAULT_INTERNAL_ERROR_MESSAGE, http_status := 200 }, s1)
        | DiscErr.requestError m =>
          (Except.ok { data := RespData.empty, error := some m, http_status := 400 }, s1)
        | DiscErr.authenticationNeeded m =>
          (Except.ok { data := RespData.empty, error := some m, http_status := 401 }, s1)
        | _ => (Except.error e, s1)

/-- DELETE /topic/topic_id: ensure the user, fetch the topic, fetch the
caller's roles, allow only the topic's username or a (case-insensitive)
admin, then delete. -/
def delete_topic (env : Env) (topic_id : String) : M DespResponse := fun s =>
  let flow : M DespResponse := fun sa =>
    match ensure_user env env.currentUser sa with
    | (Except.error e, s1) => (Except.error e, s1)
    | (Except.ok _, s1) =>
      match env.currentUser with
      | none => (Except.error (DiscErr.unhandled "AttributeError: username of None"), s1)
      | some user =>
        match get_discourse_topic env topic_id s1 with
        | (Except.error e, s2) => (Except.error e, s2)
        | (Except.ok topic, s2) =>
          match get_current_user_roles env s2 with
          | (Except.error e, s3) => (Except.error e, s3)
          | (Except.ok none, s3) =>
            (Except.error (DiscErr.unhandled "TypeError: roles is None"), s3)
          | (Except.ok (some current_user_roles), s3) =>
            let is_admin := (current_user_roles.map (fun r => pyLower r)).contains "admin"
            if topic.username != some user.username && !is_admin then
              (Except.ok { data := RespData.empty,
                           error := some "Only the topic owner or admin can delete the topic.",
                           http_status := 403 }, s3)
            else
              match delete_discourse_topic env topic_id s3 with
              | (Except.error e, s4) => (Except.error e, s4)
              | (Except.ok _, s4) =>
                (Except.ok { data := RespData.message "Topic deleted successfully",
                             error := none, http_status := 200 }, s4)
  match flow s with
  | (Except.ok r, s1) => (Except.ok r, s1)
  | (Except.error e, s1) =>
    match e with
    | DiscErr.unavailable _ =>
      (Except.ok { data := RespData.empty,
                   error := some DEFAULT_INTERNAL_ERROR_MESSAGE, http_status := 500 }, s1)
    | DiscErr.resourceUnavailable =>
      (Except.ok { data := RespData.empty,
                   error := some DEFAULT_INTERNAL_ERROR_MESSAGE, http_status := 500 }, s1)
    | DiscErr.requestError m =>
      (Except.ok { data := RespData.empty, error := some m, http_status := 400 }, s1)
    | DiscErr.authenticationNeeded m =>
      (Except.ok { data := RespData.empty, error := some m, http_status := 401 }, s1)
    | _ => (Except.error e, s1)

/-- DELETE /topic/moderate/topic_id: ensure the user, fetch the topic, delete
it, and e-mail the CURRENT user (user.profile.email) with the topic's title in
the message body. -/
def moderate_topic (env : Env) (topic_id : String) : M DespResponse := fun s =>
  let flow : M DespResponse := fun sa =>
    match ensure_user env env.currentUser sa with
    | (Except.error e, s1) => (Except.error e, s1)
    | (Except.ok _, s1) =>
      match env.currentUser with
      | none => (Except.error (DiscErr.unhandled "AttributeError: profile of None"), s1)
      | some user =>
        match get_discourse_topic env topic_id s1 with
        | (Except.error e, s2) => (Except.error e, s2)
        | (Except.ok topic, s2) =>
          match delete_discourse_topic env topic_id s2 with
          | (Except.error e, s3) => (Except.error e, s3)
          | (Except.ok _, s3) =>
            let s4 := addCall s3 (ExtCall.emailSend user.profile.email
              "Topic refused by moderation"
              ("Topic has been refused by the moderation: " ++ topic.title))
            (Except.ok { data := RespData.message "Topic moderated successfully",
                         error := none, http_status := 200 }, s4)
  match flow s with
  | (Except.ok r, s1) => (Except.ok r, s1)
  | (Except.error e, s1) =>
    match e with
    | DiscErr.unavailable _ =>
      (Except.ok { data := RespData.empty,
                   error := some DEFAULT_INTERNAL_ERROR_MESSAGE, http_status := 500 }, s1)
    | DiscErr.resourceUnavailable =>
      (Except.ok { data := RespData.empty,
                   error := some DEFAULT_INTERNAL_ERROR_MESSAGE, http_status := 500 }, s1)
    | DiscErr.requestError m =>
      (Except.ok { data := RespData.empty, error := some m, http_status := 400 }, s1)
    | DiscErr.authenticationNeeded m =>
      (Except.ok { data := RespData.empty, error := some m, http_status := 401 }, s1)
    | _ => (Except.error e, s1)

/-! ## Spec-side definitions and concrete scenario environments -/

/-- Spec-side formulation of the topic-listing username rule: the username,
looked up in the payload's user table, of the FIRST poster whose description
contains "Original Poster"; none when no such poster exists. -/
def specUsername (users : List DiscourseUserRec) (posters : List DiscoursePoster) :
    Option String :=
  match posters.find? (fun p => containsSubstring "Original Poster" p.description) with
  | none => none
  | some p =>
    match p.user_id with
    | none => none
    | some uid => user_lookup users uid

/-- Spec-side definition (follows the spec's words, not the source): the
e-mail address of the moderated post's original author, i.e. the auth
collaborator's address for the username recorded on the fetched post. -/
def spec_author_email_of_post (env : Env) : Option String :=
  match env.postFetchBody with
  | none => none
  | some p =>
    match env.profileEmails.find? (fun e => e.fst == p.username) with
    | none => none
    | some e => some e.snd

/-- The e-mail recipients appearing in a call trace. -/
def emailRecipients (calls : List ExtCall) : List String :=
  calls.filterMap (fun c =>
    match c with
    | ExtCall.emailSend r _ _ => some r
    | _ => none)

/-- A benign environment every concrete scenario starts from. -/
def baseEnv : Env :=
  { currentUser := none
    randNum := 0
    ensureUserResp := { status := 200, errors := [] }
    catFetchResp := { status := 200, errors := [] }
    catFetchCategory := none
    catCreateResp := { status := 200, errors := [] }
    catCreateBodyErrors := none
    catCreateCategory := none
    topicsResp := { status := 200, errors := [] }
    topicsPayload := none
    topicCreateResp := { status := 200, errors := [] }
    topicCreateBodyError := none
    topicCreatePost := none
    postCreateResp := { status := 200, errors := [] }
    postCreateBody := none
    postFetchResp := { status := 200, errors := [] }
    postFetchBody := none
    postEditResp := { status := 200, errors := [] }
    postEditBody := none
    topicFetchResp := { status := 200, errors := [] }
    topicFetchBody := none
    topicDeleteResp := { status := 200, errors := [] }
    rolesStatus := 200
    rolesBody := []
    mqPostOk := true
    mqTopicOk := true
    assetOwnerStatus := 200
    assetOwnerId := "owner"
    ownerMail := some "owner@eu.space"
    assetPublicName := "asset"
    profileEmails := [] }

/-- The empty starting state of a request. -/
def st0 : St := { db := [], calls := [] }

/-- The asset id of the C1 scenario (as in the repository's component test). -/
def c1AssetId : String := "00000000-00b0-00bb-b00b-00b000000000"

/-- The placeholder topic of the C1 scenario. -/
def c1Placeholder : RawTopic := { id := 66, title := "About the 1 category", posters := [] }

/-- The real topic of the C1 scenario. -/
def c1RealTopic : RawTopic :=
  { id := 67, title := "Test_ds: An awesome new topic", posters := [] }

/-- C1 scenario environment: no association row, the platform creates category
id 1 named Uncategorized, and the topic list holds the placeholder and one
real topic. -/
def c1Env : Env :=
  { baseEnv with
    catCreateCategory := some { id := 1, name := "Uncategorized", slug := "uncategorized" }
    topicsPayload := some { users := [], topics := [c1Placeholder, c1RealTopic] } }

/-! ## Helper lemmas -/

theorem handle_response_error_200 (errors : List String) (message : String) :
    handle_response_error 200 errors message = Except.ok () := rfl

theorem handle_response_error_404 (errors : List String) (message : String) :
    handle_response_error 404 errors message = Except.ok () := rfl

/-- The source's first-matching-poster loop computes exactly the find?-based
specification of the username rule. -/
theorem resolveUsername_eq_specUsername (users : List DiscourseUserRec)
    (posters : List DiscoursePoster) :
    resolveUsername users posters = specUsername users posters := by
  induction posters with
  | nil => rfl
  | cons p ps ih =>
    by_cases h : containsSubstring "Original Poster" p.description = true
    · simp [resolveUsername, specUsername, h]
    · simp [resolveUsername, specUsername, h]
      simpa [specUsername] using ih

/-! ## Claim theorems -/

/-- The response the claim predicts for C1: only the real topic. -/
def c1ClaimedResponse : DespResponse :=
  { data := RespData.discussion
      { id := 1
        name := "Uncategorized"
        topics := [{ id := 67, title := "Test_ds: An awesome new topic", username := none }] }
    error := none
    http_status := 200 }

/-- The response the code actually produces for C1: both topics. -/
def c1ActualResponse : DespResponse :=
  { data := RespData.discussion
      { id := 1
        name := "Uncategorized"
        topics := [{ id := 66, title := "About the 1 category", username := none },
                   { id := 67, title := "Test_ds: An awesome new topic", username := none }] }
    error := none
    http_status := 200 }

/-- The final state of the C1 run: one association row, four external calls. -/
def c1FinalSt : St :=
  { db := [{ assetId := c1AssetId, categoryId := 1 }]
    calls := [ExtCall.dbSelect c1AssetId,
              ExtCall.forumCategoryCreate ("0_" ++ c1AssetId),
              ExtCall.dbInsert 1 c1AssetId,
              ExtCall.forumTopicsFetch "uncategorized" 1] }

/-- Claim C1, counterexample.  In the C1 scenario (no association row, the
platform creating category id 1 named Uncategorized, a topic list holding the
placeholder "About the 1 category" and one real topic), the GET /discussion
response contains BOTH topics: the placeholder is not excluded, because
check_default_message only matches titles of the shape
"About the digits_uuid category".  The claim's "contains only the one real
topic" is therefore false at this input. -/
theorem C1_counterexample :
    c1ActualResponse ≠ c1ClaimedResponse ∧
    (get_category c1Env c1AssetId st0).1 = Except.ok c1ActualResponse := by
  constructor
  · decide
  · rfl

/-- Claim C1, amended.  Same scenario: the response has id 1, name
"Uncategorized", and both topics in platform order (the placeholder
"About the 1 category" is kept since its title does not match the
digits_uuid filter pattern); exactly one external category is created and one
association row persisted.  This matches the repository's own component test. -/
theorem C1_amended :
    get_category c1Env c1AssetId st0 = (Except.ok c1ActualResponse, c1FinalSt) ∧
    check_default_message "About the 1 category" = false := by
  constructor
  · rfl
  · rfl

/-- C2 failing environment: the platform answers the topic-list fetch with a
500 whose body is not a topic list. -/
def c2Env : Env :=
  { baseEnv with topicsResp := { status := 500, errors := ["Internal Server Error"] } }

/-- C2 failing environment variant: a 500 whose JSON body happens to parse as a
topic list. -/
def c2BodyEnv : Env :=
  { baseEnv with
    topicsResp := { status := 500, errors := [] }
    topicsPayload := some { users := [], topics := [{ id := 7, title := "leaked", posters := [] }] } }

/-- The response get_topics actually produces when the 500 body parses as a
topic list: the platform body returned as success data. -/
def c2LeakedResponse : DespResponse :=
  { data := RespData.topics [{ id := 7, title := "leaked", username := none }]
    error := none
    http_status := 200 }

/-- Claim C2, divergence at the failing input.  In get_discourse_topics the
source calls handle_response_error without awaiting it, so the 5xx classifier
never runs for topic listing: on a 500 the route raises an uncaught exception
(no DespResponse with the generic message is produced), and when the 500 body
happens to parse as a topic list the route even returns that platform body as
success data.  For every other adapter operation the classifier is awaited and
a 5xx does surface as the generic internal error. -/
theorem C2_missing_await_divergence :
    get_topics c2Env "uncategorized" 1 st0 =
      (Except.error (DiscErr.unhandled "KeyError: topic_list"),
       { db := [], calls := [ExtCall.forumTopicsFetch "uncategorized" 1] }) ∧
    get_topics c2BodyEnv "uncategorized" 1 st0 =
      (Except.ok c2LeakedResponse,
       { db := [], calls := [ExtCall.forumTopicsFetch "uncategorized" 1] }) := by
  constructor
  · rfl
  · rfl

/-- Claim C4: when the platform answers the category fetch with a 404, the
adapter behaves exactly as create_category(asset_id) (after recording the fetch
call): it falls back to creation and returns the created category rather than
raising a not-found error. -/
theorem C4_category_fetch_404_creates (env : Env) (cid : Nat) (asset_id : String) (s : St)
    (h : env.catFetchResp.status = 404) :
    get_discourse_category env (some cid) asset_id s =
      create_category env asset_id (addCall s (ExtCall.forumCategoryFetch cid)) := by
  unfold get_discourse_category
  rw [h]
  simp [handle_response_error, is_a_5xx_error]

theorem C4_witness :
    ({ baseEnv with catFetchResp := { status := 404, errors := [] } } : Env).catFetchResp.status
        = 404 ∧
    get_discourse_category { baseEnv with catFetchResp := { status := 404, errors := [] } }
        (some 38) c1AssetId st0 =
      create_category { baseEnv with catFetchResp := { status := 404, errors := [] } }
        c1AssetId (addCall st0 (ExtCall.forumCategoryFetch 38)) :=
  ⟨rfl, C4_category_fetch_404_creates _ 38 c1AssetId st0 rfl⟩

/-- Claim C8: a uniqueness/integrity violation raised by the database layer's
insert is caught inside set_category_asset: the function returns the None
failure value without raising, and the association table is left unchanged. -/
theorem C8_integrity_violation_swallowed (s : St) (category_id : Nat) (asset_id : String)
    (e : String) (h : dbInsertRow s.db category_id asset_id = Except.error e) :
    set_category_asset category_id asset_id s =
      (Except.ok none, addCall s (ExtCall.dbInsert category_id asset_id)) := by
  unfold set_category_asset
  rw [h]

theorem C8_witness :
    dbInsertRow [{ assetId := "a1", categoryId := 7 }] 9 "a1" = Except.error "IntegrityError" ∧
    set_category_asset 9 "a1" { db := [{ assetId := "a1", categoryId := 7 }], calls := [] } =
      (Except.ok none,
        addCall { db := [{ assetId := "a1", categoryId := 7 }], calls := [] }
          (ExtCall.dbInsert 9 "a1")) :=
  ⟨rfl, C8_integrity_violation_swallowed _ 9 "a1" "IntegrityError" rfl⟩

/-- The fixed 400 validation response with the given message. -/
def validationFailureResponse (msg : String) : DespResponse :=
  { data := RespData.empty, error := some msg, http_status := 400 }

/-- Claim C5: a POST /topic whose title is shorter than 15 characters, or whose
text is shorter than 20 characters, gets HTTP 400 with the corresponding fixed
message, and the state is returned unchanged: no forum, auth, asset, database
or queue call is recorded. -/
theorem C5_short_title_or_text (env : Env) (u : DespUser) (body : CreateTopicBody) (s : St)
    (hu : env.currentUser = some u)
    (h : body.title.length < 15 ∨ body.text.length < 20) :
    create_topic env body s =
      (Except.ok (validationFailureResponse
        (if body.title.length < 15 then TITLE_TOO_SHORT else CONTENT_TOO_SHORT)), s) := by
  unfold create_topic
  rw [hu]
  rcases h with h | h
  · simp [MIN_TITLE_SIZE_IN_CHAR, validationFailureResponse, h]
  · by_cases ht : body.title.length < 15
    · simp [MIN_TITLE_SIZE_IN_CHAR, validationFailureResponse, ht]
    · simp [MIN_TITLE_SIZE_IN_CHAR, MIN_CONTENT_SIZE_IN_CHAR, validationFailureResponse, ht, h]

/-- A user for the concrete witnesses. -/
def wUser : DespUser :=
  { id := "u-1", username := "utest", displayName := "Unit test",
    profile := { email := "utest@eu.space" } }

theorem C5_witness :
    create_topic { baseEnv with currentUser := some wUser }
        { title := "too short", text := "this text is long enough to pass", asset_id := "a" }
        st0 =
      (Except.ok (validationFailureResponse TITLE_TOO_SHORT), st0) ∧
    create_topic { baseEnv with currentUser := some wUser }
        { title := "a long enough topic title", text := "short text", asset_id := "a" } st0 =
      (Except.ok (validationFailureResponse CONTENT_TOO_SHORT), st0) := by
  constructor
  · simpa using C5_short_title_or_text { baseEnv with currentUser := some wUser }
      wUser { title := "too short", text := "this text is long enough to pass", asset_id := "a" }
      st0 rfl (Or.inl (by decide))
  · simpa using C5_short_title_or_text { baseEnv with currentUser := some wUser }
      wUser { title := "a long enough topic title", text := "short text", asset_id := "a" }
      st0 rfl (Or.inr (by decide))

/-- Claim C7: every topic returned by the topic listing carries as username the
user-table lookup of its first "Original Poster"-flagged poster (none when no
such poster exists, and none when the lookup misses). -/
theorem C7_topic_username_resolution (env : Env) (slug : String) (cid : Nat) (s : St)
    (ts : List DiscourseTopic) (s2 : St)
    (hrun : get_discourse_topics env slug cid s = (Except.ok ts, s2))
    (t : DiscourseTopic) (ht : t ∈ ts) :
    ∃ data raw, env.topicsPayload = some data ∧ raw ∈ data.topics ∧
      t.id = raw.id ∧ t.username = specUsername data.users raw.posters := by
  cases hp : env.topicsPayload with
  | none =>
    simp only [get_discourse_topics, hp] at hrun
    split at hrun
    · split at hrun <;> simp at hrun
    · simp at hrun
  | some data =>
    simp only [get_discourse_topics, hp] at hrun
    have hts : ts = (data.topics.filter (fun r => !(check_default_message r.title))).map
        (fun r => { id := r.id, title := r.title,
                    username := resolveUsername data.users r.posters }) := by
      split at hrun
      · split at hrun
        · simp at hrun
        · simp only [Prod.mk.injEq, Except.ok.injEq] at hrun
          exact hrun.1.symm
      · simp only [Prod.mk.injEq, Except.ok.injEq] at hrun
        exact hrun.1.symm
    subst hts
    obtain ⟨raw, hrawmem, hfr⟩ := List.mem_map.mp ht
    refine ⟨data, raw, rfl, List.mem_of_mem_filter hrawmem, ?_, ?_⟩
    · rw [← hfr]
    · rw [← hfr]
      exact resolveUsername_eq_specUsername data.users raw.posters

/-- The poster, raw topic and payload of the C7 witness scenario. -/
def c7Poster : DiscoursePoster :=
  { description := "Original Poster, Most Recent Poster", user_id := some 10 }

def c7RawTopic : RawTopic := { id := 67, title := "Test topic", posters := [c7Poster] }

def c7Payload : TopicsPayload :=
  { users := [{ id := 10, username := "test1" }], topics := [c7RawTopic] }

def c7Env : Env := { baseEnv with topicsPayload := some c7Payload }

def c7Enriched : DiscourseTopic := { id := 67, title := "Test topic", username := some "test1" }

theorem C7_witness :
    ∃ data raw, c7Env.topicsPayload = some data ∧ raw ∈ data.topics ∧
      c7Enriched.id = raw.id ∧ c7Enriched.username = specUsername data.users raw.posters :=
  C7_topic_username_resolution c7Env "s" 1 st0 [c7Enriched]
    { db := [], calls := [ExtCall.forumTopicsFetch "s" 1] } (by rfl) c7Enriched (by simp)

/-- The 403 response of the delete-topic ownership check. -/
def forbiddenDeleteResponse : DespResponse :=
  { data := RespData.empty
    error := some "Only the topic owner or admin can delete the topic."
    http_status := 403 }

/-- The success response of DELETE /topic. -/
def deletedResponse : DespResponse :=
  { data := RespData.message "Topic deleted successfully", error := none, http_status := 200 }

/-- Claim C6: DELETE /topic returns 403 without calling the forum delete
endpoint when the caller is neither the topic's resolved creator nor holds a
case-insensitive "admin" role; when the caller is the owner or an admin the
topic is deleted and a success message returned. -/
theorem C6_delete_topic_authorization (env : Env) (u : DespUser) (tv : RawTopicView)
    (rs : List String) (tid : String) (s : St)
    (hu : env.currentUser = some u)
    (hens : env.ensureUserResp.status = 200)
    (htf : env.topicFetchResp.status = 200)
    (htb : env.topicFetchBody = some tv)
    (hroles : env.rolesStatus = 200)
    (hrb : env.rolesBody = rs)
    (hdel : env.topicDeleteResp.status = 200) :
    (tv.created_by ≠ some u.username ∧ "admin" ∉ rs.map (fun r => pyLower r) →
      delete_topic env tid s = (Except.ok forbiddenDeleteResponse,
        { s with calls := s.calls ++ [ExtCall.forumEnsureUser, ExtCall.forumTopicFetch tid,
            ExtCall.authProfileRoles] })) ∧
    (tv.created_by = some u.username ∨ "admin" ∈ rs.map (fun r => pyLower r) →
      delete_topic env tid s = (Except.ok deletedResponse,
        { s with calls := s.calls ++ [ExtCall.forumEnsureUser, ExtCall.forumTopicFetch tid,
            ExtCall.authProfileRoles, ExtCall.forumTopicDelete tid] })) := by
  constructor
  · rintro ⟨hne, hnadmin⟩
    have hbne : (tv.created_by != some u.username) = true := bne_iff_ne.mpr hne
    have hforall : ∀ x ∈ rs, ¬ pyLower x = "admin" := by
      intro x hx hlow
      exact hnadmin (List.mem_map.mpr ⟨x, hx, hlow⟩)
    unfold delete_topic ensure_user get_discourse_topic get_current_user_roles
    rw [hu]
    simp [hens, htf, htb, hroles, hrb, hdel, hbne, handle_response_error,
      is_a_5xx_error, addCall, forbiddenDeleteResponse]
    rw [if_pos hforall]
  · intro hown
    unfold delete_topic ensure_user get_discourse_topic get_current_user_roles
      delete_discourse_topic
    rw [hu]
    rcases hown with hown | hown
    · simp [hens, htf, htb, hroles, hrb, hdel, hown, handle_response_error,
        is_a_5xx_error, addCall, deletedResponse]
    · obtain ⟨a, ha, hlow⟩ := List.mem_map.mp hown
      have hnotall : ¬ ∀ x ∈ rs, ¬ pyLower x = "admin" := fun hall => hall a ha hlow
      simp [hens, htf, htb, hroles, hrb, hdel, hnotall, handle_response_error,
        is_a_5xx_error, addCall, deletedResponse]

def c6TopicView : RawTopicView := { id := 9, title := "T", created_by := some "alice" }

def c6EnvForbidden : Env :=
  { baseEnv with
    currentUser := some wUser
    topicFetchBody := some c6TopicView
    rolesBody := ["user"] }

def c6EnvAdmin : Env :=
  { baseEnv with
    currentUser := some wUser
    topicFetchBody := some c6TopicView
    rolesBody := ["user", "Admin"] }

/-- The final state of the forbidden C6 run: no delete call recorded. -/
def c6ForbiddenSt : St :=
  { db := []
    calls := [ExtCall.forumEnsureUser, ExtCall.forumTopicFetch "9", ExtCall.authProfileRoles] }

/-- The final state of the admin C6 run: the delete call recorded. -/
def c6AdminSt : St :=
  { db := []
    calls := [ExtCall.forumEnsureUser, ExtCall.forumTopicFetch "9", ExtCall.authProfileRoles,
              ExtCall.forumTopicDelete "9"] }

theorem C6_witness :
    delete_topic c6EnvForbidden "9" st0 = (Except.ok forbiddenDeleteResponse, c6ForbiddenSt) ∧
    delete_topic c6EnvAdmin "9" st0 = (Except.ok deletedResponse, c6AdminSt) := by
  constructor
  · have h := (C6_delete_topic_authorization c6EnvForbidden wUser c6TopicView ["user"] "9" st0
      (by rfl) (by rfl) (by rfl) (by rfl) (by rfl) (by rfl) (by rfl)).1 ⟨by decide, by decide⟩
    simpa [c6ForbiddenSt, st0] using h
  · have h := (C6_delete_topic_authorization c6EnvAdmin wUser c6TopicView ["user", "Admin"] "9"
      st0 (by rfl) (by rfl) (by rfl) (by rfl) (by rfl) (by rfl) (by rfl)).2 (Or.inr (by decide))
    simpa [c6AdminSt, st0] using h

/-- The 500 response of POST /topic when no association row exists. -/
def missingCategoryResponse (asset_id : String) : DespResponse :=
  { data := RespData.errorData
      ("Topic creation Failed. Category_id for asset " ++ asset_id ++ " is missing.")
    error := none
    http_status := 500 }

/-- Claim C10: a length-valid POST /topic whose asset has no association row
returns http_status 500 with the missing-category message, and the only
external calls performed are the user provisioning and the association lookup:
no category creation and no topic creation happen. -/
theorem C10_missing_category_no_creation (env : Env) (u : DespUser) (body : CreateTopicBody)
    (s : St)
    (hu : env.currentUser = some u)
    (ht : ¬ body.title.length < 15)
    (hx : ¬ body.text.length < 20)
    (hens : env.ensureUserResp.status = 200)
    (hdb : s.db.filter (fun r => r.assetId == body.asset_id) = []) :
    create_topic env body s =
      (Except.ok (missingCategoryResponse body.asset_id),
        { s with calls := s.calls ++ [ExtCall.forumEnsureUser, ExtCall.dbSelect body.asset_id] })
    := by
  unfold create_topic ensure_user get_category_asset
  rw [hu]
  simp [MIN_TITLE_SIZE_IN_CHAR, MIN_CONTENT_SIZE_IN_CHAR, ht, hx, hens, hdb,
    handle_response_error, is_a_5xx_error, addCall, missingCategoryResponse]

theorem C10_witness :
    create_topic { baseEnv with currentUser := some wUser }
      { title := "a long enough topic title", text := "a sufficiently long topic text",
        asset_id := "asset-1" } st0 =
      (Except.ok (missingCategoryResponse "asset-1"),
        { db := [], calls := [ExtCall.forumEnsureUser, ExtCall.dbSelect "asset-1"] }) :=
  C10_missing_category_no_creation { baseEnv with currentUser := some wUser } wUser
    { title := "a long enough topic title", text := "a sufficiently long topic text",
      asset_id := "asset-1" } st0 rfl (by decide) (by decide) rfl rfl

/-- Claim C9: when the moderation publish fails with an MQ send failure, the
failure surfaces as the distinct SendPostModerationError (uncaught by the
route's except-clauses), and the call trace ends at the publish attempt: the
created forum content is never deleted or edited afterwards. -/
theorem C9_mq_failure_surfaced_no_rollback (env : Env) (u : DespUser) (tid : String)
    (pb : CreatePostBody) (p : DiscoursePostR) (tb : CreateTopicBody) (tp : DiscoursePostR)
    (row : DbRow) (s : St)
    (hu : env.currentUser = some u)
    (hens : env.ensureUserResp.status = 200)
    (hpc : env.postCreateResp.status = 200)
    (hpb : env.postCreateBody = some p)
    (hmqp : env.mqPostOk = false)
    (htlen : ¬ tb.title.length < 15)
    (hxlen : ¬ tb.text.length < 20)
    (hdb : (s.db.filter (fun r => r.assetId == tb.asset_id)).head? = some row)
    (htc : env.topicCreateResp.status = 200)
    (htce : env.topicCreateBodyError = none)
    (htcp : env.topicCreatePost = some tp)
    (hmqt : env.mqTopicOk = false) :
    create_post env tid pb s =
      (Except.error DiscErr.sendPostModeration,
        { s with calls := s.calls ++ [ExtCall.forumEnsureUser,
            ExtCall.forumPostCreate tid pb.text, ExtCall.mqPublish "post"] }) ∧
    create_topic env tb s =
      (Except.error DiscErr.sendPostModeration,
        { s with calls := s.calls ++ [ExtCall.forumEnsureUser, ExtCall.dbSelect tb.asset_id,
            ExtCall.forumTopicCreate tb.title tb.text, ExtCall.mqPublish "topic"] }) := by
  constructor
  · unfold create_post ensure_user create_discourse_post send_post_to_moderation
    rw [hu]
    simp [hens, hpc, hpb, hmqp, handle_response_error, is_a_5xx_error, addCall]
  · unfold create_topic ensure_user get_category_asset create_discourse_topic
      send_topic_to_moderation
    rw [hu]
    simp [MIN_TITLE_SIZE_IN_CHAR, MIN_CONTENT_SIZE_IN_CHAR, htlen, hxlen, hens, hdb, htc,
      htce, htcp, hmqt, handle_response_error, is_a_5xx_error, addCall]

def c9Post : DiscoursePostR := { id := 11, username := "utest", cooked := "content", topic_id := 42 }

def c9Env : Env :=
  { baseEnv with
    currentUser := some wUser
    mqPostOk := false
    mqTopicOk := false
    postCreateBody := some c9Post
    topicCreatePost := some c9Post }

def c9Body : CreateTopicBody :=
  { title := "a long enough topic title", text := "a sufficiently long topic text",
    asset_id := "asset-1" }

def c9St : St := { db := [{ assetId := "asset-1", categoryId := 3 }], calls := [] }

theorem C9_witness :
    create_post c9Env "42" { text := "content" } c9St =
      (Except.error DiscErr.sendPostModeration,
        { c9St with calls := c9St.calls ++ [ExtCall.forumEnsureUser,
            ExtCall.forumPostCreate "42" "content", ExtCall.mqPublish "post"] }) ∧
    create_topic c9Env c9Body c9St =
      (Except.error DiscErr.sendPostModeration,
        { c9St with calls := c9St.calls ++ [ExtCall.forumEnsureUser,
            ExtCall.dbSelect c9Body.asset_id,
            ExtCall.forumTopicCreate c9Body.title c9Body.text, ExtCall.mqPublish "topic"] }) :=
  C9_mq_failure_surfaced_no_rollback c9Env wUser "42" { text := "content" } c9Post c9Body
    c9Post { assetId := "asset-1", categoryId := 3 } c9St rfl rfl rfl rfl rfl (by decide)
    (by decide) rfl rfl rfl rfl rfl

/-- The success response of PUT /post/moderate. -/
def moderatedPostResponse (ep : DiscoursePostR) : DespResponse :=
  { data := RespData.post ep, error := none, http_status := 200 }

/-- The success response of DELETE /topic/moderate. -/
def moderatedTopicResponse : DespResponse :=
  { data := RespData.message "Topic moderated successfully", error := none, http_status := 200 }

/-- The original post, edited post and topic of the C3 scenario, authored by
alice while the moderation endpoint is invoked by a distinct moderator user. -/
def c3OrigPost : DiscoursePostR :=
  { id := 5, username := "alice", cooked := "original content", topic_id := 9 }

def c3EditedPost : DiscoursePostR :=
  { id := 5, username := "alice", cooked := "blocked", topic_id := 9 }

def c3TopicView : RawTopicView := { id := 9, title := "offensive topic", created_by := some "alice" }

def c3ModUser : DespUser :=
  { id := "mod-1", username := "mod", displayName := "Moderator",
    profile := { email := "moderator@eu.space" } }

def c3Env : Env :=
  { baseEnv with
    currentUser := some c3ModUser
    postFetchBody := some c3OrigPost
    postEditBody := some c3EditedPost
    topicFetchBody := some c3TopicView
    profileEmails := [("alice", "alice@eu.space"), ("mod", "moderator@eu.space")] }

/-- Claim C3, counterexample.  In the C3 scenario the moderated post's author
is alice (auth-collaborator address alice at eu.space), yet the only e-mail the
moderation edit sends goes to the calling moderator's address: the notification
is not sent to the original author. -/
theorem C3_counterexample :
    spec_author_email_of_post c3Env = some "alice@eu.space" ∧
    emailRecipients (moderate_post c3Env "5" { text := "blocked" } st0).2.calls
      = ["moderator@eu.space"] ∧
    "alice@eu.space" ∉ emailRecipients (moderate_post c3Env "5" { text := "blocked" } st0).2.calls
    := by
  refine ⟨rfl, rfl, ?_⟩
  decide

/-- Claim C3, amended: after a successful moderate-edit (post) or
moderate-delete (topic), exactly one e-mail is sent, its recipient is the
address of the user invoking the moderation endpoint (intended to act on the
author's behalf; the code never resolves the original author), and its body
includes the original post content resp. the topic title. -/
theorem C3_amended_notification (env : Env) (u : DespUser) (pid tid : String)
    (body : EditPostBody) (op ep : DiscoursePostR) (tv : RawTopicView) (s : St)
    (hu : env.currentUser = some u)
    (hens : env.ensureUserResp.status = 200)
    (hpf : env.postFetchResp.status = 200)
    (hpfb : env.postFetchBody = some op)
    (hpe : env.postEditResp.status = 200)
    (hpeb : env.postEditBody = some ep)
    (htf : env.topicFetchResp.status = 200)
    (htfb : env.topicFetchBody = some tv)
    (hdel : env.topicDeleteResp.status = 200) :
    moderate_post env pid body s =
      (Except.ok (moderatedPostResponse ep),
        { s with calls := s.calls ++ [ExtCall.forumEnsureUser, ExtCall.forumPostFetch pid,
            ExtCall.forumPostEdit pid body.text,
            ExtCall.emailSend u.profile.email "Post refused by moderation"
              ("Post has been refused by the moderation: " ++ op.cooked)] }) ∧
    moderate_topic env tid s =
      (Except.ok moderatedTopicResponse,
        { s with calls := s.calls ++ [ExtCall.forumEnsureUser, ExtCall.forumTopicFetch tid,
            ExtCall.forumTopicDelete tid,
            ExtCall.emailSend u.profile.email "Topic refused by moderation"
              ("Topic has been refused by the moderation: " ++ tv.title)] }) := by
  constructor
  · unfold moderate_post ensure_user get_discourse_post edit_discourse_post
    rw [hu]
    simp [hens, hpf, hpfb, hpe, hpeb, handle_response_error, is_a_5xx_error, addCall,
      moderatedPostResponse]
  · unfold moderate_topic ensure_user get_discourse_topic delete_discourse_topic
    rw [hu]
    simp [hens, htf, htfb, hdel, handle_response_error, is_a_5xx_error, addCall,
      moderatedTopicResponse]

theorem C3_amended_witness :
    moderate_post c3Env "5" { text := "blocked" } st0 =
      (Except.ok (moderatedPostResponse c3EditedPost),
        { st0 with calls := st0.calls ++ [ExtCall.forumEnsureUser, ExtCall.forumPostFetch "5",
            ExtCall.forumPostEdit "5" "blocked",
            ExtCall.emailSend c3ModUser.profile.email "Post refused by moderation"
              ("Post has been refused by the moderation: " ++ c3OrigPost.cooked)] }) ∧
    moderate_topic c3Env "9" st0 =
      (Except.ok moderatedTopicResponse,
        { st0 with calls := st0.calls ++ [ExtCall.forumEnsureUser, ExtCall.forumTopicFetch "9",
            ExtCall.forumTopicDelete "9",
            ExtCall.emailSend c3ModUser.profile.email "Topic refused by moderation"
              ("Topic has been refused by the moderation: " ++ c3TopicView.title)] }) :=
  C3_amended_notification c3Env c3ModUser "5" "9" { text := "blocked" } c3OrigPost
    c3EditedPost c3TopicView st0 rfl rfl rfl rfl rfl rfl rfl rfl rfl

end Discussion
